import Mathlib

/-!
Verification development for the Mattermost PagerDuty plugin core
(incident-event correlation and action-dispatch engine).

The Go sources are shallowly embedded: bytes are naturals below 256,
machine words are naturals reduced modulo 2^32, and the stateful parts
(the key-value store of notification records and the channel posts)
are explicit state passing over `SysState`.  The webhook signature
check calls Go's `crypto/hmac` / `crypto/sha256` / `encoding/hex`;
those library routines are embedded by their standard definitions
(FIPS 180-4 SHA-256, RFC 2104 HMAC) so that the digest computation is
executable inside Lean.
-/

namespace PagerDutyPlugin

/-! ## SHA-256 (embedding of Go crypto/sha256 as used by verifyWebhookSignature) -/

/-- Reduction of a natural number to a 32-bit word. -/
def w32 (n : Nat) : Nat := n % 4294967296

/-- Right rotation of a 32-bit word by n bits. -/
def rotr32 (n w : Nat) : Nat := w32 ((w >>> n) ||| (w <<< (32 - n)))

/-- Ch function of the SHA-256 compression loop. -/
def shaCh (e f g : Nat) : Nat := (e &&& f) ^^^ ((e ^^^ 4294967295) &&& g)

/-- Maj function of the SHA-256 compression loop. -/
def shaMaj (a b c : Nat) : Nat := (a &&& b) ^^^ (a &&& c) ^^^ (b &&& c)

/-- Big sigma-0 of SHA-256. -/
def bigSigma0 (a : Nat) : Nat := rotr32 2 a ^^^ rotr32 13 a ^^^ rotr32 22 a

/-- Big sigma-1 of SHA-256. -/
def bigSigma1 (e : Nat) : Nat := rotr32 6 e ^^^ rotr32 11 e ^^^ rotr32 25 e

/-- Small sigma-0 of the SHA-256 message schedule. -/
def smallSigma0 (x : Nat) : Nat := rotr32 7 x ^^^ rotr32 18 x ^^^ (x >>> 3)

/-- Small sigma-1 of the SHA-256 message schedule. -/
def smallSigma1 (x : Nat) : Nat := rotr32 17 x ^^^ rotr32 19 x ^^^ (x >>> 10)

/-- The 64 round constants of SHA-256 (FIPS 180-4, written in decimal). -/
def K256 : List Nat :=
  [1116352408, 1899447441, 3049323471, 3921009573, 961987163, 1508970993,
   2453635748, 2870763221, 3624381080, 310598401, 607225278, 1426881987,
   1925078388, 2162078206, 2614888103, 3248222580, 3835390401, 4022224774,
   264347078, 604807628, 770255983, 1249150122, 1555081692, 1996064986,
   2554220882, 2821834349, 2952996808, 3210313671, 3336571891, 3584528711,
   113926993, 338241895, 666307205, 773529912, 1294757372, 1396182291,
   1695183700, 1986661051, 2177026350, 2456956037, 2730485921, 2820302411,
   3259730800, 3345764771, 3516065817, 3600352804, 4094571909, 275423344,
   430227734, 506948616, 659060556, 883997877, 958139571, 1322822218,
   1537002063, 1747873779, 1955562222, 2024104815, 2227730452, 2361852424,
   2428436474, 2756734187, 3204031479, 3329325298]

/-- Working variables of one SHA-256 compression. -/
structure SHAWords where
  a : Nat
  b : Nat
  c : Nat
  d : Nat
  e : Nat
  f : Nat
  g : Nat
  h : Nat
deriving DecidableEq, Repr

/-- Initial hash value of SHA-256 (FIPS 180-4, written in decimal). -/
def initH : SHAWords :=
  { a := 1779033703, b := 3144134277, c := 1013904242, d := 2773480762,
    e := 1359893119, f := 2600822924, g := 528734635, h := 1541459225 }

/-- Big-endian packing of bytes into 32-bit words. -/
def toWords32 : List Nat → List Nat
  | b0 :: b1 :: b2 :: b3 :: rest =>
      ((b0 <<< 24) ||| (b1 <<< 16) ||| (b2 <<< 8) ||| b3) :: toWords32 rest
  | _ => []

/-- Extension of the 16-word block to the 64-word message schedule,
with fuel counting the remaining words to produce. -/
def extendW : Nat → List Nat → List Nat
  | 0, w => w
  | n + 1, w =>
      let L := w.length
      let nw := w32 (smallSigma1 (w.getD (L - 2) 0) + w.getD (L - 7) 0 +
                     smallSigma0 (w.getD (L - 15) 0) + w.getD (L - 16) 0)
      extendW n (w ++ [nw])

/-- One round of the SHA-256 compression function. -/
def shaRound (s : SHAWords) (kw : Nat × Nat) : SHAWords :=
  let t1 := w32 (s.h + bigSigma1 s.e + shaCh s.e s.f s.g + kw.1 + kw.2)
  let t2 := w32 (bigSigma0 s.a + shaMaj s.a s.b s.c)
  { a := w32 (t1 + t2), b := s.a, c := s.b, d := s.c,
    e := w32 (s.d + t1), f := s.e, g := s.f, h := s.g }

/-- Compression of one 64-byte block into the running hash state. -/
def shaCompress (h0 : SHAWords) (block : List Nat) : SHAWords :=
  let w := extendW 48 (toWords32 block)
  let s := (K256.zip w).foldl shaRound h0
  { a := w32 (h0.a + s.a), b := w32 (h0.b + s.b), c := w32 (h0.c + s.c), d := w32 (h0.d + s.d),
    e := w32 (h0.e + s.e), f := w32 (h0.f + s.f), g := w32 (h0.g + s.g), h := w32 (h0.h + s.h) }

/-- Iterated block compression, with fuel counting the remaining blocks. -/
def sha256Blocks : Nat → List Nat → SHAWords → SHAWords
  | 0, _, h => h
  | n + 1, bytes, h => sha256Blocks n (bytes.drop 64) (shaCompress h (bytes.take 64))

/-- Big-endian 8-byte encoding of the 64-bit message length. -/
def lenBytes64 (n : Nat) : List Nat :=
  [(n >>> 56) % 256, (n >>> 48) % 256, (n >>> 40) % 256, (n >>> 32) % 256,
   (n >>> 24) % 256, (n >>> 16) % 256, (n >>> 8) % 256, n % 256]

/-- SHA-256 padding: a 0x80 byte, zero fill to 56 mod 64, then the bit length. -/
def sha256Pad (msg : List Nat) : List Nat :=
  msg ++ 128 :: (List.replicate ((119 - msg.length % 64) % 64) 0 ++ lenBytes64 ((8 * msg.length) % 18446744073709551616))

/-- Big-endian bytes of one 32-bit word. -/
def word4 (w : Nat) : List Nat :=
  [(w >>> 24) % 256, (w >>> 16) % 256, (w >>> 8) % 256, w % 256]

/-- Big-endian byte serialization of the final hash state. -/
def wordsOut (s : SHAWords) : List Nat :=
  word4 s.a ++ word4 s.b ++ word4 s.c ++ word4 s.d ++ word4 s.e ++ word4 s.f ++ word4 s.g ++ word4 s.h

/-- SHA-256 of a byte sequence. -/
def sha256 (msg : List Nat) : List Nat :=
  let padded := sha256Pad msg
  wordsOut (sha256Blocks (padded.length / 64) padded initH)

/-- HMAC-SHA256 per RFC 2104 (the construction used by Go crypto/hmac with sha256). -/
def hmacSha256 (key msg : List Nat) : List Nat :=
  let k0 := if 64 < key.length then sha256 key else key
  let kPad := k0 ++ List.replicate (64 - k0.length) 0
  let ipadKey := kPad.map (fun b => b ^^^ 54)
  let opadKey := kPad.map (fun b => b ^^^ 92)
  sha256 (opadKey ++ sha256 (ipadKey ++ msg))

/-! ## Hex encoding (embedding of Go encoding/hex.EncodeToString) -/

/-- Lowercase hexadecimal digit of a nibble. -/
def hexDigit (n : Nat) : Char :=
  if n < 10 then Char.ofNat (48 + n) else Char.ofNat (87 + n)

/-- Lowercase hexadecimal encoding of a byte sequence, two digits per byte. -/
def hexEncode : List Nat → List Char
  | [] => []
  | b :: rest => hexDigit (b / 16) :: hexDigit (b % 16) :: hexEncode rest

/-! ## Signature verification (verifyWebhookSignature in webhook handling code) -/

/-- Outcome of verifyWebhookSignature: success, the distinct missing-signature
error, or a signature mismatch. -/
inductive SigResult where
  | ok
  | noSignature
  | invalidSignature
deriving DecidableEq, Repr

/-- Strip of the v1= scheme tag when present, as strings.HasPrefix and
strings.TrimPrefix do in the source. -/
def stripV1 (sig : List Char) : List Char :=
  if sig.take 3 = ['v', '1', '='] then sig.drop 3 else sig

/-- Embedding of verifyWebhookSignature: an empty header is the distinct
no-signature error; otherwise the v1= tag is stripped, HMAC-SHA256 of the
body under the secret is hex encoded, and the two strings are compared
(hmac.Equal on their bytes). -/
def verifyWebhookSignature (body secret : List Nat) (providedSignature : List Char) : SigResult :=
  if providedSignature = [] then
    .noSignature
  else
    let stripped := stripV1 providedSignature
    let calculated := hexEncode (hmacSha256 secret body)
    if stripped = calculated then .ok else .invalidSignature

/-! ## Data model (server/pagerduty/pagerduty.go)

Time values are embedded as naturals (Unix epoch), JSON-only metadata
fields that no modeled function reads (log entries and the free-form
data map of a webhook message) are omitted. -/

/-- PagerDuty service reference. -/
structure Service where
  id : String
  name : String
deriving DecidableEq, Repr

/-- PagerDuty user. -/
structure User where
  id : String
  name : String
  email : String
deriving DecidableEq, Repr

/-- PagerDuty incident assignment. -/
structure Assignment where
  assignee : User
  assignedAt : Nat
deriving DecidableEq, Repr

/-- PagerDuty escalation policy reference. -/
structure EscalationPolicy where
  id : String
  name : String
  htmlURL : String
deriving DecidableEq, Repr

/-- PagerDuty incident snapshot. -/
structure Incident where
  id : String
  incidentNumber : Nat
  title : String
  description : String
  status : String
  urgency : String
  createdAt : Nat
  service : Service
  assignments : List Assignment
  lastStatusChangeBy : User
  lastStatusChangeAt : Nat
  alertCount : Nat
  htmlURL : String
  escalationPolicy : EscalationPolicy
deriving DecidableEq, Repr

/-- Message of the legacy webhook payload shape. -/
structure WebhookMessage where
  id : String
  event : String
  createdOn : Nat
  incident : Incident
deriving DecidableEq, Repr

/-- Legacy webhook payload: a batch of messages. -/
structure WebhookPayload where
  messages : List WebhookMessage
deriving DecidableEq, Repr

/-- V3 webhook reference object. -/
structure V3Reference where
  htmlURL : String
  id : String
  selfURL : String
  summary : String
  type : String
deriving DecidableEq, Repr

/-- V3 webhook event envelope. -/
structure V3Event where
  id : String
  eventType : String
  resourceType : String
  occurredAt : String
  agent : V3Reference
  data : Incident
deriving DecidableEq, Repr

/-- V3 webhook payload: exactly one event envelope. -/
structure V3WebhookPayload where
  event : V3Event
deriving DecidableEq, Repr

/-- Notification record correlating one incident with one chat post,
stored in the key-value store. -/
structure PostAttachment where
  id : String
  postID : String
  channelID : String
  incident : Incident
deriving DecidableEq, Repr

/-- Payload of an incident action request. -/
structure IncidentActionPayload where
  incidentID : String
  action : String
  userID : String
  assigneeID : String
deriving DecidableEq, Repr

/-! ## Constants (api.go, and the status constants of the client package) -/

def ActionAcknowledge : String := "acknowledge"
def ActionResolve : String := "resolve"
def ActionReassign : String := "reassign"

def EventIncidentTriggered : String := "incident.triggered"
def EventIncidentAcknowledged : String := "incident.acknowledged"
def EventIncidentResolved : String := "incident.resolved"
def EventIncidentReassigned : String := "incident.reassigned"
def EventIncidentStatusUpdated : String := "incident.status_update_published"

def KeyIncidentAttachments : String := "incident_attachments:"

/-- Incident status constant of the client package (package client,
const block of the PagerDuty API client). -/
def StatusTriggered : String := "triggered"

/-- Incident status constant of the client package. -/
def StatusAcknowledged : String := "acknowledged"

/-- Incident status constant of the client package. -/
def StatusResolved : String := "resolved"

def pluginID : String := "com.github.mnzsyu.mattermost-pagerduty-plugin"

/-! ## Rendering (createIncidentProps, getIncidentActions) -/

/-- Labeled field of a rendered message attachment. -/
structure SlackAttachmentField where
  title : String
  value : String
  short : Bool
deriving DecidableEq, Repr

/-- Option of a select-type post action. -/
structure PostActionOption where
  text : String
  value : String
deriving DecidableEq, Repr

/-- Interactive action attached to a rendered message.  The integration
context map is represented by its two entries (incident id and action). -/
structure PostAction where
  id : String
  name : String
  type : String
  style : String
  url : String
  contextIncidentID : String
  contextAction : String
  dataSource : String
  options : List PostActionOption
deriving DecidableEq, Repr

/-- Rendered message attachment. -/
structure SlackAttachment where
  title : String
  text : String
  color : String
  fields : List SlackAttachmentField
  actions : List PostAction
deriving DecidableEq, Repr

/-- Post props: the attachments list and the from_webhook marker. -/
structure PostProps where
  attachments : List SlackAttachment
  from_webhook : String
deriving DecidableEq, Repr

/-- Chat post. -/
structure Post where
  id : String
  userId : String
  channelId : String
  props : PostProps
deriving DecidableEq, Repr

/-- Approximation of cases.Title(language.English) on the single-word
status and urgency values: the first character is upcased. -/
def titleEnglish (s : String) : String :=
  match s.data with
  | [] => s
  | c :: rest => String.mk (c.toUpper :: rest)

/-- Joined assignee names, as strings.Join of the assignment list. -/
def assigneeNames (incident : Incident) : List String :=
  incident.assignments.map (fun a => a.assignee.name)

/-- Color of the rendered attachment: red for high-urgency triggered,
orange for other triggered (and the default), yellow for acknowledged,
green for resolved. -/
def incidentColor (incident : Incident) : String :=
  if incident.status = StatusTriggered then
    (if incident.urgency = "high" then "#FF0000" else "#FFA500")
  else if incident.status = StatusAcknowledged then "#FFFF00"
  else if incident.status = StatusResolved then "#008000"
  else "#FFA500"

/-- Available actions for an incident: acknowledge only while triggered,
resolve unless resolved, reassign always. -/
def getIncidentActions (incident : Incident) : List PostAction :=
  (if incident.status = StatusTriggered then
    [{ id := ActionAcknowledge, name := "Acknowledge", type := "button", style := "primary",
       url := "/plugins/" ++ pluginID ++ "/api/v1/incidents/" ++ incident.id ++ "/acknowledge",
       contextIncidentID := incident.id, contextAction := ActionAcknowledge,
       dataSource := "", options := [] }]
   else []) ++
  (if incident.status ≠ StatusResolved then
    [{ id := ActionResolve, name := "Resolve", type := "button", style := "success",
       url := "/plugins/" ++ pluginID ++ "/api/v1/incidents/" ++ incident.id ++ "/resolve",
       contextIncidentID := incident.id, contextAction := ActionResolve,
       dataSource := "", options := [] }]
   else []) ++
  [{ id := ActionReassign, name := "Reassign", type := "select", style := "",
     url := "/plugins/" ++ pluginID ++ "/api/v1/incidents/" ++ incident.id ++ "/reassign",
     contextIncidentID := incident.id, contextAction := ActionReassign,
     dataSource := "custom", options := [] }]

/-- Fields of the rendered attachment: service, urgency, optional assignees,
created time (RFC3339 formatting abstracted to the epoch value), link. -/
def incidentFields (incident : Incident) : List SlackAttachmentField :=
  [{ title := "Service", value := incident.service.name, short := true },
   { title := "Urgency", value := titleEnglish incident.urgency, short := true }] ++
  (if (assigneeNames incident).length > 0 then
    [{ title := "Assigned To", value := String.intercalate ", " (assigneeNames incident), short := true }]
   else []) ++
  [{ title := "Created", value := toString incident.createdAt, short := true },
   { title := "Link", value := "[View in PagerDuty](" ++ incident.htmlURL ++ ")", short := false }]

/-- Props of an incident post, as createIncidentProps builds them. -/
def createIncidentProps (incident : Incident) : PostProps :=
  { attachments :=
      [{ title := "[#" ++ toString incident.incidentNumber ++ "] " ++ incident.title,
         text := incident.description,
         color := incidentColor incident,
         fields := incidentFields incident,
         actions := getIncidentActions incident }],
    from_webhook := "true" }

/-! ## System state: key-value store of notification records and chat posts

The Mattermost KV store and post API are the external collaborators of
§6 of the spec; they are embedded as explicit state.  The record is
stored JSON-serialized in the source; serialization round-trips, so the
store holds the record value directly. -/

/-- Plugin configuration relevant to the core: the resolved destination
channel (getChannelID) and the bot user id. -/
structure Config where
  channel : String
  botUserID : String
deriving DecidableEq, Repr

/-- State of the external collaborators: notification records by key,
chat posts, and the generator for fresh post identifiers. -/
structure SysState where
  kv : List (String × PostAttachment)
  posts : List Post
  nextPostId : Nat
deriving DecidableEq, Repr

/-- Empty initial state. -/
def initialState : SysState := { kv := [], posts := [], nextPostId := 0 }

/-- Fresh post identifier handed out by the next CreatePost. -/
def freshPostId (st : SysState) : String := "post_" ++ toString st.nextPostId

/-- KVSet: the value stored under the key is replaced. -/
def kvSet (st : SysState) (key : String) (att : PostAttachment) : SysState :=
  { st with kv := (key, att) :: st.kv.filter (fun e => !(e.1 == key)) }

/-- KVGet: the value stored under the key, if any. -/
def kvGet (st : SysState) (key : String) : Option PostAttachment :=
  (st.kv.find? (fun e => e.1 == key)).map (fun e => e.2)

/-- CreatePost: a post with a fresh identifier is appended. -/
def createPost (st : SysState) (userId channelId : String) (props : PostProps) : Post × SysState :=
  let post : Post := { id := freshPostId st, userId := userId, channelId := channelId, props := props }
  (post, { st with posts := st.posts ++ [post], nextPostId := st.nextPostId + 1 })

/-- GetPost: the post with the given identifier, if it still exists. -/
def getPost (st : SysState) (postId : String) : Option Post :=
  st.posts.find? (fun p => p.id == postId)

/-- UpdatePost: the post with the matching identifier is replaced. -/
def updatePost (st : SysState) (post : Post) : SysState :=
  { st with posts := st.posts.map (fun p => if p.id == post.id then post else p) }

/-- storeIncidentAttachment: the record is stored under the incident key. -/
def storeIncidentAttachment (st : SysState) (att : PostAttachment) : SysState :=
  kvSet st (KeyIncidentAttachments ++ att.id) att

/-- getIncidentAttachment: the record for the incident, if present. -/
def getIncidentAttachment (st : SysState) (incidentID : String) : Option PostAttachment :=
  kvGet st (KeyIncidentAttachments ++ incidentID)

/-! ## Notification correlator (processWebhookMessage and its callees) -/

/-- handleTriggeredIncident: a new post for the incident is created in the
given channel and the record is stored pointing at it. -/
def handleTriggeredIncident (cfg : Config) (st : SysState) (incident : Incident)
    (channelID : String) : SysState :=
  let userId := if cfg.botUserID = "" then "system" else cfg.botUserID
  let created := createPost st userId channelID (createIncidentProps incident)
  storeIncidentAttachment created.2
    { id := incident.id, postID := created.1.id, channelID := channelID, incident := incident }

/-- updateIncidentPost: the existing post is refreshed with the new snapshot
and the record overwritten; if the post no longer exists, the create path is
taken in the record's channel. -/
def updateIncidentPost (cfg : Config) (st : SysState) (incident : Incident)
    (attachment : PostAttachment) : SysState :=
  match getPost st attachment.postID with
  | none => handleTriggeredIncident cfg st incident attachment.channelID
  | some post =>
      let st1 := updatePost st { post with props := createIncidentProps incident }
      storeIncidentAttachment st1 { attachment with incident := incident }

/-- processWebhookMessage: triggered events take the create path; the four
update-class events refresh the existing record or fall back to the create
path; anything else is ignored. -/
def processWebhookMessage (cfg : Config) (st : SysState) (message : WebhookMessage) : SysState :=
  let channelID := cfg.channel
  let attachment := getIncidentAttachment st message.incident.id
  if message.event = EventIncidentTriggered then
    handleTriggeredIncident cfg st message.incident channelID
  else if message.event = EventIncidentAcknowledged ∨ message.event = EventIncidentResolved ∨
          message.event = EventIncidentReassigned ∨ message.event = EventIncidentStatusUpdated then
    match attachment with
    | some a => updateIncidentPost cfg st message.incident a
    | none => handleTriggeredIncident cfg st message.incident channelID
  else
    st

/-! ## Event normalizer (processV3WebhookEvent, HandleWebhook) -/

/-- Mapping of a V3 event_type string to the internal event constant, as the
switch in processV3WebhookEvent. -/
def mapEventType (eventType : String) : Option String :=
  if eventType = "incident.triggered" then some EventIncidentTriggered
  else if eventType = "incident.acknowledged" then some EventIncidentAcknowledged
  else if eventType = "incident.resolved" then some EventIncidentResolved
  else if eventType = "incident.reassigned" then some EventIncidentReassigned
  else if eventType = "incident.status_update_published" then some EventIncidentStatusUpdated
  else none

/-- Normalization of a V3 envelope to at most one canonical message:
non-incident resources and unrecognized event types yield none. -/
def normalizeV3Event (event : V3Event) : Option WebhookMessage :=
  if event.resourceType ≠ "incident" then none
  else
    match mapEventType event.eventType with
    | some me => some { id := event.id, event := me, createdOn := 0, incident := event.data }
    | none => none

/-- processV3WebhookEvent: dropped envelopes leave the state unchanged and
report no error; recognized ones are processed as a webhook message. -/
def processV3WebhookEvent (cfg : Config) (st : SysState) (event : V3Event) : SysState :=
  match normalizeV3Event event with
  | none => st
  | some m => processWebhookMessage cfg st m

/-- HandleWebhook after JSON decoding: the single event of the V3 payload is
processed.  This is the only processing path of the ingress. -/
def handleWebhookDecoded (cfg : Config) (st : SysState) (payload : V3WebhookPayload) : SysState :=
  processV3WebhookEvent cfg st payload.event

/-- Canonical events an ingress request produces: the normalization of the
single V3 envelope, zero or one. -/
def ingressCanonicalEvents (payload : V3WebhookPayload) : List WebhookMessage :=
  (normalizeV3Event payload.event).toList

/-- Zero value of an Incident, as Go json.Unmarshal leaves untouched fields. -/
def zeroIncident : Incident :=
  { id := "", incidentNumber := 0, title := "", description := "", status := "", urgency := "",
    createdAt := 0, service := { id := "", name := "" }, assignments := [],
    lastStatusChangeBy := { id := "", name := "", email := "" }, lastStatusChangeAt := 0,
    alertCount := 0, htmlURL := "",
    escalationPolicy := { id := "", name := "", htmlURL := "" } }

/-- Zero value of a V3 envelope. -/
def zeroV3Event : V3Event :=
  { id := "", eventType := "", resourceType := "", occurredAt := "",
    agent := { htmlURL := "", id := "", selfURL := "", summary := "", type := "" },
    data := zeroIncident }

/-- Models Go json.Unmarshal of a legacy-shape body into V3WebhookPayload, as
HandleWebhook decodes every request: the messages key is unknown to the V3
payload struct and is ignored, leaving the event field at its zero value. -/
def decodeLegacyAsV3 (_legacy : WebhookPayload) : V3WebhookPayload :=
  { event := zeroV3Event }

/-! ## Action dispatcher (HandleIncidentAction, performReassign) -/

/-- Remote incident-API call issued through the PagerDuty client. -/
inductive RemoteCall where
  | update (incidentID status email note : String)
  | assign (incidentID : String) (assignees : List String) (email : String)
  | listUsers
deriving DecidableEq, Repr

/-- HTTP-level outcome of an action request. -/
inductive ActionResult where
  | success
  | usersOptions (options : List PostActionOption)
  | invalidAction
  | remoteFailure
deriving DecidableEq, Repr

/-- Results the remote PagerDuty client returns for the at-most-one call of
each kind a dispatch can make. -/
structure PDClient where
  updateResult : Except String Incident
  assignResult : Except String Incident
  listUsersResult : Except String (List User)
deriving Repr

/-- performReassign: the fetch_users sentinel lists users and returns the
candidate options; a concrete assignee issues one assign call. -/
def performReassign (pd : PDClient) (st : SysState) (incidentID assigneeID userEmail : String) :
    ActionResult × SysState × List RemoteCall :=
  if assigneeID = "fetch_users" then
    match pd.listUsersResult with
    | .error _ => (.remoteFailure, st, [.listUsers])
    | .ok users =>
        (.usersOptions (users.map (fun u => { text := u.name, value := u.id })), st, [.listUsers])
  else
    match pd.assignResult with
    | .error _ => (.remoteFailure, st, [.assign incidentID [assigneeID] userEmail])
    | .ok _ => (.success, st, [.assign incidentID [assigneeID] userEmail])

/-- HandleIncidentAction after user resolution: acknowledge and resolve issue
one update call with the corresponding status and the acting user's email;
reassign dispatches to performReassign; anything else is the invalid-action
client error with no remote call.  The returned state is the state after the
handler: the source performs no local refresh. -/
def HandleIncidentAction (pd : PDClient) (st : SysState) (incidentID action : String)
    (payload : IncidentActionPayload) (userEmail : String) :
    ActionResult × SysState × List RemoteCall :=
  if action = ActionAcknowledge then
    match pd.updateResult with
    | .error _ => (.remoteFailure, st, [.update incidentID StatusAcknowledged userEmail ""])
    | .ok _ => (.success, st, [.update incidentID StatusAcknowledged userEmail ""])
  else if action = ActionResolve then
    match pd.updateResult with
    | .error _ => (.remoteFailure, st, [.update incidentID StatusResolved userEmail ""])
    | .ok _ => (.success, st, [.update incidentID StatusResolved userEmail ""])
  else if action = ActionReassign then
    performReassign pd st incidentID payload.assigneeID userEmail
  else
    (.invalidAction, st, [])

/-! ## Reachable system states

Webhook deliveries drive the correlator; chat messages can additionally be
deleted externally (spec §4.4: a record's message may stop resolving). -/

/-- One step of the environment: a processed webhook message, or an external
deletion of a chat post. -/
inductive SysStep where
  | webhook (message : WebhookMessage)
  | deletePost (postId : String)
deriving DecidableEq, Repr

/-- Application of one step to the state. -/
def applyStep (cfg : Config) (st : SysState) : SysStep → SysState
  | .webhook m => processWebhookMessage cfg st m
  | .deletePost pid => { st with posts := st.posts.filter (fun p => !(p.id == pid)) }

/-- Run of a step sequence from the empty state. -/
def runSteps (cfg : Config) (steps : List SysStep) : SysState :=
  steps.foldl (applyStep cfg) initialState

/-- States the system can be in: those produced by some run. -/
def Reachable (cfg : Config) (st : SysState) : Prop :=
  ∃ steps : List SysStep, runSteps cfg steps = st

/-! ## Shared helper lemmas and concrete scenario data -/

/-- Records stored for one incident identifier. -/
def recordsFor (st : SysState) (incidentID : String) : List (String × PostAttachment) :=
  st.kv.filter (fun e => e.1 == KeyIncidentAttachments ++ incidentID)

theorem filter_filter_not {α : Type} (p : α → Bool) (l : List α) :
    (l.filter (fun a => !(p a))).filter p = [] := by
  induction l with
  | nil => rfl
  | cons a l ih =>
      by_cases h : p a = true <;> simp [List.filter_cons, h, ih]

theorem recordsFor_kvSet (st : SysState) (incidentID : String) (att : PostAttachment) :
    recordsFor (kvSet st (KeyIncidentAttachments ++ incidentID) att) incidentID =
      [(KeyIncidentAttachments ++ incidentID, att)] := by
  simp [recordsFor, kvSet, List.filter_cons, filter_filter_not]

theorem kvGet_kvSet_self (st : SysState) (key : String) (att : PostAttachment) :
    kvGet (kvSet st key att) key = some att := by
  simp [kvGet, kvSet, List.find?_cons]

theorem recordsFor_handleTriggered (cfg : Config) (st : SysState) (inc : Incident)
    (ch : String) :
    recordsFor (handleTriggeredIncident cfg st inc ch) inc.id =
      [(KeyIncidentAttachments ++ inc.id,
        { id := inc.id, postID := freshPostId st, channelID := ch, incident := inc })] := by
  simp only [handleTriggeredIncident, storeIncidentAttachment]
  exact recordsFor_kvSet _ _ _

/-- Concrete configuration used by the scenario runs. -/
def cfg0 : Config := { channel := "chan", botUserID := "bot" }

/-- Concrete triggered incident INC1 of the end-to-end scenarios. -/
def incTrig : Incident :=
  { zeroIncident with id := "INC1", incidentNumber := 42, status := "triggered", urgency := "high" }

/-- The same incident after acknowledgement. -/
def incAck : Incident := { incTrig with status := "acknowledged" }

/-- Triggered webhook message for INC1. -/
def msgTrig : WebhookMessage :=
  { id := "e1", event := EventIncidentTriggered, createdOn := 0, incident := incTrig }

/-- Acknowledged webhook message for INC1. -/
def msgAck : WebhookMessage :=
  { id := "e2", event := EventIncidentAcknowledged, createdOn := 0, incident := incAck }

/-! ## C9: action set of the rendered notification -/

/-- C9.  For every incident snapshot, the rendered action set contains the
acknowledge button exactly when the status is triggered, the resolve button
exactly when the status is not resolved, and always the reassign selector. -/
theorem c9_incident_actions (incident : Incident) :
    ((getIncidentActions incident).any (fun a => a.id == ActionAcknowledge))
        = (incident.status == StatusTriggered) ∧
    ((getIncidentActions incident).any (fun a => a.id == ActionResolve))
        = !(incident.status == StatusResolved) ∧
    ((getIncidentActions incident).any (fun a => a.id == ActionReassign)) = true := by
  by_cases h1 : incident.status = StatusTriggered <;>
    by_cases h2 : incident.status = StatusResolved <;>
      simp_all [getIncidentActions, ActionAcknowledge, ActionResolve, ActionReassign,
        StatusTriggered, StatusResolved]

/-! ## C3: V3 event normalization table -/

/-- C3.  A non-incident resource type yields zero canonical events and no
error regardless of event type; on incident resources each of the five
recognized event_type strings maps to its canonical event; any other string
yields zero events and no error. -/
theorem c3_event_normalization (e : V3Event) (cfg : Config) (st : SysState) :
    (e.resourceType ≠ "incident" →
        normalizeV3Event e = none ∧ processV3WebhookEvent cfg st e = st) ∧
    (e.resourceType = "incident" →
      (e.eventType = "incident.triggered" → normalizeV3Event e =
          some { id := e.id, event := EventIncidentTriggered, createdOn := 0, incident := e.data }) ∧
      (e.eventType = "incident.acknowledged" → normalizeV3Event e =
          some { id := e.id, event := EventIncidentAcknowledged, createdOn := 0, incident := e.data }) ∧
      (e.eventType = "incident.resolved" → normalizeV3Event e =
          some { id := e.id, event := EventIncidentResolved, createdOn := 0, incident := e.data }) ∧
      (e.eventType = "incident.reassigned" → normalizeV3Event e =
          some { id := e.id, event := EventIncidentReassigned, createdOn := 0, incident := e.data }) ∧
      (e.eventType = "incident.status_update_published" → normalizeV3Event e =
          some { id := e.id, event := EventIncidentStatusUpdated, createdOn := 0, incident := e.data })) ∧
    (e.eventType ∉ (["incident.triggered", "incident.acknowledged", "incident.resolved",
                     "incident.reassigned", "incident.status_update_published"] : List String) →
        normalizeV3Event e = none ∧ processV3WebhookEvent cfg st e = st) := by
  refine ⟨fun h => ?_, fun hres => ⟨fun h => ?_, fun h => ?_, fun h => ?_, fun h => ?_, fun h => ?_⟩,
    fun h => ?_⟩
  · simp [normalizeV3Event, processV3WebhookEvent, h]
  · simp [normalizeV3Event, processV3WebhookEvent, mapEventType, hres, h]
  · simp [normalizeV3Event, processV3WebhookEvent, mapEventType, hres, h]
  · simp [normalizeV3Event, processV3WebhookEvent, mapEventType, hres, h]
  · simp [normalizeV3Event, processV3WebhookEvent, mapEventType, hres, h]
  · simp [normalizeV3Event, processV3WebhookEvent, mapEventType, hres, h]
  · simp only [List.mem_cons, List.mem_singleton, not_or] at h
    obtain ⟨h1, h2, h3, h4, h5, _⟩ := h
    by_cases hres : e.resourceType = "incident" <;>
      simp [normalizeV3Event, processV3WebhookEvent, mapEventType, hres, h1, h2, h3, h4, h5]

/-- Concrete resolved V3 envelope for the C3 witness. -/
def eventRes : V3Event :=
  { zeroV3Event with
    id := "ev9"
    eventType := "incident.resolved"
    resourceType := "incident"
    data := incAck }

/-- C3 witness: a concrete instantiation of the normalization table. -/
theorem c3_event_normalization_witness :
    eventRes.resourceType = "incident" ∧ eventRes.eventType = "incident.resolved" ∧
    normalizeV3Event eventRes =
      some { id := "ev9", event := EventIncidentResolved, createdOn := 0, incident := incAck } :=
  ⟨rfl, rfl, ((c3_event_normalization eventRes cfg0 initialState).2.1 rfl).2.2.1 rfl⟩

/-- Remote client whose calls all succeed, returning the acknowledged
snapshot and one candidate user. -/
def pdOk : PDClient :=
  { updateResult := .ok incAck, assignResult := .ok incAck,
    listUsersResult := .ok [{ id := "U1", name := "Alice", email := "" }] }

/-- Reassign payload carrying the fetch_users sentinel. -/
def payloadFetch : IncidentActionPayload :=
  { incidentID := "INC1", action := "reassign", userID := "u1", assigneeID := "fetch_users" }

/-- Acknowledge payload for INC1. -/
def payloadAck : IncidentActionPayload :=
  { incidentID := "INC1", action := "acknowledge", userID := "u1", assigneeID := "" }

/-- State after the triggered delivery for INC1: one record, one post. -/
def stINC1 : SysState := processWebhookMessage cfg0 initialState msgTrig

/-! ## C8: action validation -/

/-- C8.  An action kind outside acknowledge, resolve, reassign fails with the
invalid-action client error and issues zero remote incident-API calls; a
reassign whose assignee is the fetch_users sentinel issues exactly one
listUsers call and zero assign calls, returning the candidate user list. -/
theorem c8_action_validation (pd : PDClient) (st : SysState) (incidentID : String)
    (payload : IncidentActionPayload) (email : String) :
    (∀ action : String,
        action ∉ ([ActionAcknowledge, ActionResolve, ActionReassign] : List String) →
        HandleIncidentAction pd st incidentID action payload email = (.invalidAction, st, [])) ∧
    (payload.assigneeID = "fetch_users" →
        (HandleIncidentAction pd st incidentID ActionReassign payload email).2.2 =
          [RemoteCall.listUsers] ∧
        (∀ users : List User, pd.listUsersResult = .ok users →
          HandleIncidentAction pd st incidentID ActionReassign payload email =
            (.usersOptions (users.map (fun u => { text := u.name, value := u.id })), st,
             [.listUsers]))) := by
  constructor
  · intro action h
    simp only [List.mem_cons, List.mem_singleton, not_or] at h
    obtain ⟨h1, h2, h3⟩ := h
    simp [HandleIncidentAction, h1, h2, h3]
  · intro hfetch
    constructor
    · cases hu : pd.listUsersResult <;>
        simp [HandleIncidentAction, ActionReassign, ActionAcknowledge, ActionResolve,
          performReassign, hfetch, hu]
    · intro users hu
      simp [HandleIncidentAction, ActionReassign, ActionAcknowledge, ActionResolve,
        performReassign, hfetch, hu]

/-- C8 witness: the launch_missiles action is rejected with no remote calls,
and the fetch_users sentinel lists users exactly once. -/
theorem c8_action_validation_witness :
    ("launch_missiles" : String) ∉
      ([ActionAcknowledge, ActionResolve, ActionReassign] : List String) ∧
    HandleIncidentAction pdOk initialState "INC1" "launch_missiles" payloadFetch "a@example.com" =
      (.invalidAction, initialState, []) ∧
    (HandleIncidentAction pdOk initialState "INC1" ActionReassign payloadFetch "a@example.com").2.2 =
      [RemoteCall.listUsers] :=
  ⟨by decide,
   (c8_action_validation pdOk initialState "INC1" payloadFetch "a@example.com").1
     "launch_missiles" (by decide),
   ((c8_action_validation pdOk initialState "INC1" payloadFetch "a@example.com").2 rfl).1⟩

/-! ## C2: no local refresh after a successful action -/

/-- C2 counterexample.  With a remote update that succeeds, acknowledging
INC1 returns success with exactly one update call, yet the returned state is
the unchanged input state: the stored snapshot still carries status
triggered, and no post was touched — the claimed refresh to the new status
does not happen. -/
theorem c2_counterexample :
    HandleIncidentAction pdOk stINC1 "INC1" ActionAcknowledge payloadAck "a@example.com" =
      (.success, stINC1, [.update "INC1" "acknowledged" "a@example.com" ""]) ∧
    (getIncidentAttachment stINC1 "INC1").map (fun r => r.incident.status) = some "triggered" := by
  constructor
  · rfl
  · rfl

/-- C2 amended.  Whenever the remote update succeeds, the acknowledge and
resolve handlers return success with exactly one update call carrying
the new status and the acting user's email, and leave the local state
(records and posts) entirely unchanged; the snapshot and message are
refreshed only by a later webhook delivery, not by the action handler. -/
theorem c2_action_success_no_local_refresh (pd : PDClient) (st : SysState)
    (incidentID : String) (payload : IncidentActionPayload) (email : String)
    (inc : Incident) (h : pd.updateResult = .ok inc) :
    HandleIncidentAction pd st incidentID ActionAcknowledge payload email =
      (.success, st, [.update incidentID StatusAcknowledged email ""]) ∧
    HandleIncidentAction pd st incidentID ActionResolve payload email =
      (.success, st, [.update incidentID StatusResolved email ""]) := by
  constructor <;> simp [HandleIncidentAction, ActionAcknowledge, ActionResolve, h]

/-- C2 witness for the amended theorem at the concrete scenario. -/
theorem c2_action_success_no_local_refresh_witness :
    pdOk.updateResult = .ok incAck ∧
    HandleIncidentAction pdOk stINC1 "INC1" ActionResolve payloadAck "a@example.com" =
      (.success, stINC1, [.update "INC1" StatusResolved "a@example.com" ""]) :=
  ⟨rfl, (c2_action_success_no_local_refresh pdOk stINC1 "INC1" payloadAck "a@example.com"
    incAck rfl).2⟩

/-! ## C1: duplicate trigger deliveries -/

/-- C1 counterexample.  Delivering the same triggered event for INC1 twice
creates two chat posts — the second delivery does not follow the update
path, so more than one message is created. -/
theorem c1_counterexample :
    ¬ ((processWebhookMessage cfg0 (processWebhookMessage cfg0 initialState msgTrig) msgTrig).posts.length ≤ 1) := by
  decide

/-- C1 amended.  A triggered delivery always takes the create path,
regardless of an existing record: delivering the same triggered event twice
leaves exactly one stored notification record for the incident — the second
delivery overwrites the first, pointing at the second message — but creates
two chat messages instead of refreshing the existing one. -/
theorem c1_trigger_always_creates (cfg : Config) (st : SysState) (m : WebhookMessage)
    (hev : m.event = EventIncidentTriggered) :
    processWebhookMessage cfg st m = handleTriggeredIncident cfg st m.incident cfg.channel ∧
    (processWebhookMessage cfg (processWebhookMessage cfg st m) m).posts.length =
      st.posts.length + 2 ∧
    recordsFor (processWebhookMessage cfg (processWebhookMessage cfg st m) m) m.incident.id =
      [(KeyIncidentAttachments ++ m.incident.id,
        { id := m.incident.id, postID := freshPostId (processWebhookMessage cfg st m),
          channelID := cfg.channel, incident := m.incident })] := by
  have hstep : ∀ st1 : SysState,
      processWebhookMessage cfg st1 m = handleTriggeredIncident cfg st1 m.incident cfg.channel := by
    intro st1
    simp [processWebhookMessage, hev]
  refine ⟨hstep st, ?_, ?_⟩
  · rw [hstep st, hstep (handleTriggeredIncident cfg st m.incident cfg.channel)]
    simp [handleTriggeredIncident, createPost, storeIncidentAttachment, kvSet]
  · rw [hstep st, hstep (handleTriggeredIncident cfg st m.incident cfg.channel)]
    exact recordsFor_handleTriggered cfg _ m.incident cfg.channel

/-- C1 amended witness: the concrete double delivery. -/
theorem c1_trigger_always_creates_witness :
    msgTrig.event = EventIncidentTriggered ∧
    (processWebhookMessage cfg0 (processWebhookMessage cfg0 initialState msgTrig) msgTrig).posts.length =
      initialState.posts.length + 2 :=
  ⟨rfl, (c1_trigger_always_creates cfg0 initialState msgTrig rfl).2.1⟩

/-! ## C5: the ingress parses only the V3 single-event shape -/

/-- Legacy batch payload of two messages. -/
def legacyTwo : WebhookPayload := { messages := [msgTrig, msgAck] }

/-- C5 counterexample.  A legacy payload carrying two messages yields zero
canonical events at the ingress — not one per message — and processing it
leaves the state unchanged: the messages list is ignored by the V3 decoding
that HandleWebhook applies to every request body. -/
theorem c5_counterexample :
    legacyTwo.messages.length = 2 ∧
    ingressCanonicalEvents (decodeLegacyAsV3 legacyTwo) = [] ∧
    handleWebhookDecoded cfg0 initialState (decodeLegacyAsV3 legacyTwo) = initialState := by
  refine ⟨rfl, rfl, rfl⟩

/-- C5 amended.  The webhook ingress decodes every request as the V3
single-event shape and therefore produces at most one canonical event per
request; a legacy messages-list payload decodes to the zero-valued event,
whose resource type is not incident, and so yields zero canonical events
and no state change. -/
theorem c5_v3_single_event_ingress (payload : V3WebhookPayload) (cfg : Config)
    (st : SysState) (legacy : WebhookPayload) :
    (ingressCanonicalEvents payload).length ≤ 1 ∧
    ingressCanonicalEvents (decodeLegacyAsV3 legacy) = [] ∧
    handleWebhookDecoded cfg st (decodeLegacyAsV3 legacy) = st := by
  refine ⟨?_, rfl, rfl⟩
  cases h : normalizeV3Event payload.event <;> simp [ingressCanonicalEvents, h]

/-! ## C6: out-of-order healing -/

/-- C6.  A non-triggered canonical event for an incident with no stored
record takes the create path: the state changes exactly as for a triggered
event — a new post is created in the configured channel and a new record
stored carrying this event's incident snapshot. -/
theorem c6_out_of_order_healing (cfg : Config) (st : SysState) (m : WebhookMessage)
    (habs : getIncidentAttachment st m.incident.id = none)
    (hev : m.event = EventIncidentAcknowledged ∨ m.event = EventIncidentResolved ∨
           m.event = EventIncidentReassigned ∨ m.event = EventIncidentStatusUpdated) :
    processWebhookMessage cfg st m = handleTriggeredIncident cfg st m.incident cfg.channel ∧
    processWebhookMessage cfg st m =
      processWebhookMessage cfg st { m with event := EventIncidentTriggered } ∧
    (processWebhookMessage cfg st m).posts = st.posts ++
      [{ id := freshPostId st,
         userId := if cfg.botUserID = "" then "system" else cfg.botUserID,
         channelId := cfg.channel, props := createIncidentProps m.incident }] ∧
    getIncidentAttachment (processWebhookMessage cfg st m) m.incident.id =
      some { id := m.incident.id, postID := freshPostId st, channelID := cfg.channel,
             incident := m.incident } := by
  have hcreate : processWebhookMessage cfg st m =
      handleTriggeredIncident cfg st m.incident cfg.channel := by
    rcases hev with h | h | h | h <;>
      simp [processWebhookMessage, h, habs, EventIncidentTriggered, EventIncidentAcknowledged,
        EventIncidentResolved, EventIncidentReassigned, EventIncidentStatusUpdated]
  refine ⟨hcreate, ?_, ?_, ?_⟩
  · rw [hcreate]; simp [processWebhookMessage]
  · rw [hcreate]; simp [handleTriggeredIncident, createPost, storeIncidentAttachment, kvSet]
  · rw [hcreate]
    show kvGet _ (KeyIncidentAttachments ++ m.incident.id) = _
    rw [handleTriggeredIncident]
    exact kvGet_kvSet_self _ _ _

/-- C6 witness: an acknowledged event for INC1 with no prior record produces
the same state as the corresponding triggered event. -/
theorem c6_out_of_order_healing_witness :
    getIncidentAttachment initialState "INC1" = none ∧
    processWebhookMessage cfg0 initialState msgAck =
      processWebhookMessage cfg0 initialState { msgAck with event := EventIncidentTriggered } :=
  ⟨rfl, (c6_out_of_order_healing cfg0 initialState msgAck rfl (Or.inl rfl)).2.1⟩

/-! ## C7: deleted-message self-heal -/

theorem handleTriggered_kv (cfg : Config) (st : SysState) (inc : Incident) (ch : String) :
    (handleTriggeredIncident cfg st inc ch).kv =
      (KeyIncidentAttachments ++ inc.id,
       { id := inc.id, postID := freshPostId st, channelID := ch, incident := inc }) ::
      st.kv.filter (fun e => !(e.1 == KeyIncidentAttachments ++ inc.id)) := rfl

theorem handleTriggered_posts (cfg : Config) (st : SysState) (inc : Incident) (ch : String) :
    (handleTriggeredIncident cfg st inc ch).posts = st.posts ++
      [{ id := freshPostId st,
         userId := if cfg.botUserID = "" then "system" else cfg.botUserID,
         channelId := ch, props := createIncidentProps inc }] := rfl

theorem attachment_handleTriggered (cfg : Config) (st : SysState) (inc : Incident)
    (ch : String) :
    getIncidentAttachment (handleTriggeredIncident cfg st inc ch) inc.id =
      some { id := inc.id, postID := freshPostId st, channelID := ch, incident := inc } := by
  show kvGet _ (KeyIncidentAttachments ++ inc.id) = _
  rw [handleTriggeredIncident]
  exact kvGet_kvSet_self _ _ _

theorem record_mem_of_attachment {st : SysState} {incidentID : String} {r : PostAttachment}
    (h : getIncidentAttachment st incidentID = some r) :
    (KeyIncidentAttachments ++ incidentID, r) ∈ st.kv := by
  unfold getIncidentAttachment kvGet at h
  cases hf : st.kv.find? (fun e => e.1 == KeyIncidentAttachments ++ incidentID) with
  | none => rw [hf] at h; simp at h
  | some pr =>
      rw [hf] at h
      simp at h
      have hm := List.mem_of_find?_eq_some hf
      have hp := List.find?_some hf
      have h1 : pr.1 = KeyIncidentAttachments ++ incidentID := by
        simpa using hp
      have hpr : pr = (KeyIncidentAttachments ++ incidentID, r) := by
        cases pr
        simp_all
      rwa [hpr] at hm

theorem kv_channel_processWebhook (cfg : Config) (st : SysState) (m : WebhookMessage)
    (ih : ∀ e ∈ st.kv, e.2.channelID = cfg.channel) :
    ∀ e ∈ (processWebhookMessage cfg st m).kv, e.2.channelID = cfg.channel := by
  have hcr : ∀ (st1 : SysState) (inc : Incident) (ch : String),
      (∀ x ∈ st1.kv, x.2.channelID = cfg.channel) → ch = cfg.channel →
      ∀ e ∈ (handleTriggeredIncident cfg st1 inc ch).kv, e.2.channelID = cfg.channel := by
    intro st1 inc ch ih1 hch e hmem
    rw [handleTriggered_kv] at hmem
    rcases List.mem_cons.mp hmem with h | h
    · rw [h]; exact hch
    · exact ih1 e (List.mem_filter.mp h).1
  intro e he
  simp only [processWebhookMessage] at he
  split at he
  · exact hcr st m.incident cfg.channel ih rfl e he
  split at he
  · cases hatt : getIncidentAttachment st m.incident.id with
    | none =>
        rw [hatt] at he
        exact hcr st m.incident cfg.channel ih rfl e he
    | some a =>
        rw [hatt] at he
        have ha : a.channelID = cfg.channel :=
          ih (KeyIncidentAttachments ++ m.incident.id, a) (record_mem_of_attachment hatt)
        simp only [updateIncidentPost] at he
        split at he
        · exact hcr st m.incident a.channelID ih ha e he
        · have hmem : e = (KeyIncidentAttachments ++ a.id, { a with incident := m.incident }) ∨
              e ∈ st.kv := by
            simp only [storeIncidentAttachment, kvSet, updatePost] at he
            rcases List.mem_cons.mp he with h | h
            · exact Or.inl h
            · exact Or.inr (List.mem_filter.mp h).1
          rcases hmem with h | h
          · rw [h]; exact ha
          · exact ih e h
  · exact ih e he

theorem kv_channel_step (cfg : Config) (st : SysState) (s : SysStep)
    (ih : ∀ e ∈ st.kv, e.2.channelID = cfg.channel) :
    ∀ e ∈ (applyStep cfg st s).kv, e.2.channelID = cfg.channel := by
  cases s with
  | webhook m => exact kv_channel_processWebhook cfg st m ih
  | deletePost pid => exact ih

theorem kv_channel_invariant (cfg : Config) (st : SysState) (h : Reachable cfg st) :
    ∀ e ∈ st.kv, e.2.channelID = cfg.channel := by
  obtain ⟨steps, rfl⟩ := h
  suffices haux : ∀ (l : List SysStep) (st0 : SysState),
      (∀ e ∈ st0.kv, e.2.channelID = cfg.channel) →
      ∀ e ∈ (l.foldl (applyStep cfg) st0).kv, e.2.channelID = cfg.channel by
    refine haux steps initialState ?_
    intro e he
    simp [initialState] at he
  intro l
  induction l with
  | nil => intro st0 h0; exact h0
  | cons s rest ihl =>
      intro st0 h0
      exact ihl _ (kv_channel_step cfg st0 s h0)

/-- C7.  In every reachable state holding a record whose stored message no
longer resolves to an existing post, delivering any of the five canonical
events for that incident creates a new message in the record's channel and
overwrites the record with the new message identifier and the new incident
snapshot; processing is total, it does not fail. -/
theorem c7_deleted_message_self_heal (cfg : Config) (st : SysState) (m : WebhookMessage)
    (r : PostAttachment)
    (hreach : Reachable cfg st)
    (hrec : getIncidentAttachment st m.incident.id = some r)
    (hgone : getPost st r.postID = none)
    (hev : m.event ∈ ([EventIncidentTriggered, EventIncidentAcknowledged, EventIncidentResolved,
                       EventIncidentReassigned, EventIncidentStatusUpdated] : List String)) :
    (processWebhookMessage cfg st m).posts = st.posts ++
      [{ id := freshPostId st,
         userId := if cfg.botUserID = "" then "system" else cfg.botUserID,
         channelId := r.channelID, props := createIncidentProps m.incident }] ∧
    getIncidentAttachment (processWebhookMessage cfg st m) m.incident.id =
      some { id := m.incident.id, postID := freshPostId st, channelID := r.channelID,
             incident := m.incident } := by
  have hch : r.channelID = cfg.channel :=
    kv_channel_invariant cfg st hreach (KeyIncidentAttachments ++ m.incident.id, r)
      (record_mem_of_attachment hrec)
  simp only [List.mem_cons, List.mem_singleton, List.not_mem_nil, or_false] at hev
  rcases hev with h | h | h | h | h
  · have hpm : processWebhookMessage cfg st m =
        handleTriggeredIncident cfg st m.incident cfg.channel := by
      simp [processWebhookMessage, h]
    rw [hpm, hch]
    exact ⟨handleTriggered_posts cfg st m.incident cfg.channel,
      attachment_handleTriggered cfg st m.incident cfg.channel⟩
  all_goals
    have hpm : processWebhookMessage cfg st m =
        handleTriggeredIncident cfg st m.incident r.channelID := by
      simp [processWebhookMessage, h, hrec, EventIncidentTriggered, EventIncidentAcknowledged,
        EventIncidentResolved, EventIncidentReassigned, EventIncidentStatusUpdated,
        updateIncidentPost, hgone]
    rw [hpm]
    exact ⟨handleTriggered_posts cfg st m.incident r.channelID,
      attachment_handleTriggered cfg st m.incident r.channelID⟩

/-- Steps of the C7 witness run: a triggered delivery for INC1 followed by an
external deletion of the created post. -/
def stepsW : List SysStep := [.webhook msgTrig, .deletePost "post_0"]

/-- State of the C7 witness run. -/
def stW : SysState := runSteps cfg0 stepsW

/-- Record left dangling by the witness run. -/
def recW : PostAttachment :=
  { id := "INC1", postID := "post_0", channelID := "chan", incident := incTrig }

/-- C7 witness: the dangling record heals on the next acknowledged event. -/
theorem c7_deleted_message_self_heal_witness :
    getIncidentAttachment stW msgAck.incident.id = some recW ∧
    getPost stW recW.postID = none ∧
    ((processWebhookMessage cfg0 stW msgAck).posts = stW.posts ++
      [{ id := freshPostId stW,
         userId := if cfg0.botUserID = "" then "system" else cfg0.botUserID,
         channelId := recW.channelID, props := createIncidentProps msgAck.incident }] ∧
     getIncidentAttachment (processWebhookMessage cfg0 stW msgAck) msgAck.incident.id =
       some { id := msgAck.incident.id, postID := freshPostId stW, channelID := recW.channelID,
              incident := msgAck.incident }) :=
  ⟨by decide, by decide,
   c7_deleted_message_self_heal cfg0 stW msgAck recW ⟨stepsW, rfl⟩ (by decide) (by decide)
     (by decide)⟩

/-! ## C4 and C10: webhook signature verification -/

theorem word4_lt (w : Nat) : ∀ b ∈ word4 w, b < 256 := by
  intro b hb
  simp only [word4, List.mem_cons, List.not_mem_nil, or_false] at hb
  rcases hb with h | h | h | h <;> subst h <;> omega

theorem sha256_bytes_lt (msg : List Nat) : ∀ b ∈ sha256 msg, b < 256 := by
  intro b hb
  simp only [sha256, wordsOut, List.mem_append] at hb
  rcases hb with ((((((h | h) | h) | h) | h) | h) | h) | h <;> exact word4_lt _ b h

theorem sha256_length (msg : List Nat) : (sha256 msg).length = 32 := by
  simp [sha256, wordsOut, word4]

theorem hmac_bytes_lt (key msg : List Nat) : ∀ b ∈ hmacSha256 key msg, b < 256 := by
  intro b hb
  exact sha256_bytes_lt _ b hb

theorem hmac_length (key msg : List Nat) : (hmacSha256 key msg).length = 32 :=
  sha256_length _

theorem hexEncode_length (l : List Nat) : (hexEncode l).length = 2 * l.length := by
  induction l with
  | nil => rfl
  | cons b rest ih => simp [hexEncode, ih]; omega

theorem hexDigit_inj : ∀ m : Nat, m < 16 → ∀ n : Nat, n < 16 → hexDigit m = hexDigit n → m = n := by
  decide

theorem hexDigit_ne_v : ∀ n : Nat, n < 16 → hexDigit n ≠ 'v' := by
  decide

theorem hexEncode_inj : ∀ l1 l2 : List Nat, (∀ b ∈ l1, b < 256) → (∀ b ∈ l2, b < 256) →
    hexEncode l1 = hexEncode l2 → l1 = l2 := by
  intro l1
  induction l1 with
  | nil =>
      intro l2 _ _ h
      cases l2 with
      | nil => rfl
      | cons b u => simp [hexEncode] at h
  | cons a t ih =>
      intro l2 h1 h2 h
      cases l2 with
      | nil => simp [hexEncode] at h
      | cons b u =>
          simp only [hexEncode, List.cons.injEq] at h
          obtain ⟨hd, hm, ht⟩ := h
          have ha := h1 a (by simp)
          have hb := h2 b (by simp)
          have h1a : a / 16 = b / 16 := hexDigit_inj _ (by omega) _ (by omega) hd
          have h2a : a % 16 = b % 16 := hexDigit_inj _ (by omega) _ (by omega) hm
          have hab : a = b := by omega
          subst hab
          have hrest : t = u :=
            ih u (fun x hx => h1 x (by simp [hx])) (fun x hx => h2 x (by simp [hx])) ht
          rw [hrest]

/-- Shape of a digest: the hex encoding of the HMAC output starts with two
hex digits of a byte below 256, hence cannot carry the v1= tag. -/
theorem digest_take3_ne (key msg : List Nat) :
    (hexEncode (hmacSha256 key msg)).take 3 ≠ ['v', '1', '='] := by
  have hlen := hmac_length key msg
  have hlt := hmac_bytes_lt key msg
  cases hD : hmacSha256 key msg with
  | nil => rw [hD] at hlen; simp at hlen
  | cons b rest =>
      have hb : b < 256 := by
        have := hlt b (by rw [hD]; exact List.mem_cons_self _ _)
        exact this
      intro hcontra
      rw [show hexEncode (b :: rest) = hexDigit (b / 16) :: hexDigit (b % 16) :: hexEncode rest
          from rfl] at hcontra
      rw [show (hexDigit (b / 16) :: hexDigit (b % 16) :: hexEncode rest).take 3 =
          hexDigit (b / 16) :: hexDigit (b % 16) :: (hexEncode rest).take 1 from rfl] at hcontra
      have hv : hexDigit (b / 16) = 'v' := (List.cons.injEq _ _ _ _).mp hcontra |>.1
      exact hexDigit_ne_v (b / 16) (by omega) hv

theorem digest_ne_nil (key msg : List Nat) : hexEncode (hmacSha256 key msg) ≠ [] := by
  intro h
  have := congrArg List.length h
  rw [hexEncode_length, hmac_length] at this
  simp at this

theorem stripV1_digest (key msg : List Nat) :
    stripV1 (hexEncode (hmacSha256 key msg)) = hexEncode (hmacSha256 key msg) := by
  rw [stripV1, if_neg (digest_take3_ne key msg)]

/-- C4.  The signature built as v1= followed by the hex HMAC-SHA256 digest of
the body under the secret always verifies; verification succeeds exactly when
the provided signature, after stripping a v1= tag, equals that hex digest;
consequently any change to body or secret that changes the digest — as
flipping a byte of either does, barring an SHA-256 collision, which lies
outside this embedding — makes verification of the original signature fail. -/
theorem c4_signature_verification (body secret : List Nat) :
    verifyWebhookSignature body secret
        (['v', '1', '='] ++ hexEncode (hmacSha256 secret body)) = .ok ∧
    (∀ sig : List Char,
        verifyWebhookSignature body secret sig = .ok ↔
          sig ≠ [] ∧ stripV1 sig = hexEncode (hmacSha256 secret body)) ∧
    (∀ body2 secret2 : List Nat,
        hmacSha256 secret2 body2 ≠ hmacSha256 secret body →
        verifyWebhookSignature body2 secret2
          (['v', '1', '='] ++ hexEncode (hmacSha256 secret body)) = .invalidSignature) := by
  have hstrip : ∀ l : List Char, stripV1 (['v', '1', '='] ++ l) = l := by
    intro l
    rw [stripV1, if_pos (show (['v', '1', '='] ++ l).take 3 = ['v', '1', '='] from rfl)]
    rfl
  refine ⟨?_, ?_, ?_⟩
  · rw [verifyWebhookSignature, if_neg (by simp), hstrip, if_pos rfl]
  · intro sig
    cases sig with
    | nil => simp [verifyWebhookSignature]
    | cons c cs =>
        rw [verifyWebhookSignature, if_neg (by simp)]
        by_cases h : stripV1 (c :: cs) = hexEncode (hmacSha256 secret body) <;>
          simp [h]
  · intro body2 secret2 hne
    have hhex : hexEncode (hmacSha256 secret body) ≠ hexEncode (hmacSha256 secret2 body2) := by
      intro he
      exact hne (hexEncode_inj _ _ (hmac_bytes_lt _ _) (hmac_bytes_lt _ _) he.symm)
    rw [verifyWebhookSignature, if_neg (by simp), hstrip, if_neg hhex]

set_option maxRecDepth 40000 in
/-- C4 witness: flipping the single body byte changes the digest, and the old
signature then fails to verify. -/
theorem c4_signature_verification_witness :
    hmacSha256 [107] [98] ≠ hmacSha256 [107] [97] ∧
    verifyWebhookSignature [98] [107]
      (['v', '1', '='] ++ hexEncode (hmacSha256 [107] [97])) = .invalidSignature := by
  have h : hmacSha256 [107] [98] ≠ hmacSha256 [107] [97] := by decide
  exact ⟨h, (c4_signature_verification [97] [107]).2.2 [98] [107] h⟩

/-- C10.  A bare hex digest without the v1= tag also verifies: a signature
not starting with v1= is compared as-is against the digest, and any foreign
nonempty tag other than v1= prepended to the correct digest fails. -/
theorem c10_bare_signature (body secret : List Nat) :
    verifyWebhookSignature body secret (hexEncode (hmacSha256 secret body)) = .ok ∧
    (∀ sig : List Char, sig.take 3 ≠ ['v', '1', '='] →
        (verifyWebhookSignature body secret sig = .ok ↔
          sig = hexEncode (hmacSha256 secret body))) ∧
    (∀ p : List Char, p ≠ [] → p ≠ ['v', '1', '='] →
        verifyWebhookSignature body secret
          (p ++ hexEncode (hmacSha256 secret body)) = .invalidSignature) := by
  refine ⟨?_, ?_, ?_⟩
  · rw [verifyWebhookSignature, if_neg (digest_ne_nil secret body), stripV1_digest,
      if_pos rfl]
  · intro sig hs
    cases sig with
    | nil =>
        simp only [verifyWebhookSignature, if_pos rfl]
        constructor
        · intro h; cases h
        · intro h; exact absurd h.symm (digest_ne_nil secret body)
    | cons c cs =>
        rw [verifyWebhookSignature, if_neg (by simp), stripV1, if_neg hs]
        by_cases h : c :: cs = hexEncode (hmacSha256 secret body) <;> simp [h]
  · intro p hne hnv
    have hDlen : (hexEncode (hmacSha256 secret body)).length = 64 := by
      rw [hexEncode_length, hmac_length]
    have hplen : 0 < p.length := List.length_pos.mpr hne
    rw [verifyWebhookSignature,
      if_neg (by simp [List.append_eq_nil]; intro h; exact absurd h hne)]
    by_cases h3 : (p ++ hexEncode (hmacSha256 secret body)).take 3 = ['v', '1', '=']
    · rw [stripV1, if_pos h3, if_neg ?_]
      intro heq
      have hlen := congrArg List.length heq
      rw [List.length_drop, List.length_append, hDlen] at hlen
      have hp3 : p.length = 3 := by omega
      have htake : (p ++ hexEncode (hmacSha256 secret body)).take p.length = p :=
        List.take_left p _
      rw [hp3] at htake
      exact hnv (htake.symm.trans h3)
    · rw [stripV1, if_neg h3, if_neg ?_]
      intro heq
      have hlen := congrArg List.length heq
      rw [List.length_append, hDlen] at hlen
      omega

/-- C10 witness: a foreign one-character tag on the correct digest fails. -/
theorem c10_bare_signature_witness :
    (['x'] : List Char) ≠ [] ∧ (['x'] : List Char) ≠ ['v', '1', '='] ∧
    verifyWebhookSignature [97] [107]
      (['x'] ++ hexEncode (hmacSha256 [107] [97])) = .invalidSignature :=
  ⟨by decide, by decide, (c10_bare_signature [97] [107]).2.2 ['x'] (by decide) (by decide)⟩

end PagerDutyPlugin
